import Mathlib

/-!
Shallow embedding of `src/advanced_checkout.js`, a small Express relay in
front of the PayPal REST API.  JavaScript values that flow through the
handlers are modelled by the inductive type `Json` (with an explicit
`undefined` constructor for JavaScript's `undefined`, the result of reading a
missing object property).  Each Express handler becomes a pure Lean
function from the process configuration, an upstream oracle
(`HttpRequest → HttpResponse`, standing for `fetch`), and the parsed
request body, to a `HandlerOutcome`: the HTTP response sent to the client,
the ordered trace of outbound upstream requests, and the list of arguments
passed to the receipt side effect `send_email_receipt`.
-/

/-- JavaScript values as they appear in the handlers: parsed JSON bodies,
destructured fields (missing fields read as `undefined`), and values sent with
`res.send` / `res.json`. -/
inductive Json where
  | undefined : Json
  | null : Json
  | bool : Bool → Json
  | num : Int → Json
  | str : String → Json
  | arr : List Json → Json
  | obj : List (String × Json) → Json
deriving Repr

/-- Property read `v.k`.  On an object it is the first binding of `k`
(`undefined` when absent, as in JavaScript).  The handlers only ever read
properties of parsed JSON bodies; the JavaScript corner where reading a
property of `null`/`undefined` throws is not reachable in any claim, so
non-objects also read as `undefined` here. -/
def Json.getField : Json → String → Json
  | .obj fields, k =>
      match fields.find? (fun p => p.1 = k) with
      | some p => p.2
      | none => .undefined
  | _, _ => .undefined

/-- Array index read `v[i]` (`undefined` out of range or on non-arrays). -/
def Json.index : Json → Nat → Json
  | .arr xs, i => xs.getD i .undefined
  | _, _ => .undefined

/-- JavaScript truthiness, as used by `if (json.id)` and
`req.body.customer_id ? _ : _`. -/
def Json.truthy : Json → Bool
  | .undefined => false
  | .null => false
  | .bool b => b
  | .num n => n != 0
  | .str s => s != ""
  | .arr _ => true
  | .obj _ => true

mutual
/-- String coercion as performed by template literals such as
`Bearer ${access_token}` (arrays join their elements with commas, objects
print as `[object Object]`). -/
def Json.toJsString : Json → String
  | .undefined => "undefined"
  | .null => "null"
  | .bool b => if b then "true" else "false"
  | .num n => toString n
  | .str s => s
  | .arr xs => toJsStringList xs
  | .obj _ => "[object Object]"

def toJsStringList : List Json → String
  | [] => ""
  | [x] => x.toJsString
  | x :: y :: rest => x.toJsString ++ "," ++ toJsStringList (y :: rest)
end

/-- One hexadecimal digit (lower case), for JSON control-character escapes. -/
def hexDigit (n : Nat) : Char :=
  ("0123456789abcdef".toList).getD n '0'

/-- `\uXXXX` escape body for a code point below 256. -/
def hex4 (n : Nat) : String :=
  String.mk ['0', '0', hexDigit (n / 16 % 16), hexDigit (n % 16)]

/-- JSON string escaping as done by `JSON.stringify`. -/
def escapeJsonChar (c : Char) : String :=
  if c = '"' then "\\\""
  else if c = '\\' then "\\\\"
  else if c = '\n' then "\\n"
  else if c = '\r' then "\\r"
  else if c = '\t' then "\\t"
  else if c.toNat < 32 then "\\u" ++ hex4 c.toNat
  else String.singleton c

def escapeJsonString (s : String) : String :=
  "\"" ++ String.join (s.toList.map escapeJsonChar) ++ "\""

mutual
/-- `JSON.stringify`: `none` exactly when the value is `undefined`
(inside arrays `undefined` prints as `null`, inside objects the binding is
dropped, as in JavaScript). -/
def jsonStringifyVal : Json → Option String
  | .undefined => none
  | .null => some "null"
  | .bool b => some (if b then "true" else "false")
  | .num n => some (toString n)
  | .str s => some (escapeJsonString s)
  | .arr xs => some ("[" ++ stringifyArr xs ++ "]")
  | .obj fields => some ("\x7b" ++ stringifyObj fields ++ "\x7d")

def stringifyArr : List Json → String
  | [] => ""
  | [x] => (jsonStringifyVal x).getD "null"
  | x :: y :: rest => (jsonStringifyVal x).getD "null" ++ "," ++ stringifyArr (y :: rest)

def stringifyObj : List (String × Json) → String
  | [] => ""
  | (k, v) :: rest =>
      match jsonStringifyVal v with
      | none => stringifyObj rest
      | some sv =>
          let entry := escapeJsonString k ++ ":" ++ sv
          if stringifyObj rest = "" then entry else entry ++ "," ++ stringifyObj rest
end

/-- `JSON.stringify` on a value known to serialise (the handlers only
stringify object literals, which always do). -/
def jsonStringify (j : Json) : String :=
  (jsonStringifyVal j).getD "undefined"

/-- RFC 4648 base64 alphabet. -/
def base64Alphabet : List Char :=
  "ABCDEFGHIJKLMNOPQRSTUVWXYZabcdefghijklmnopqrstuvwxyz0123456789+/".toList

def b64Char (n : Nat) : Char := base64Alphabet.getD n '='

/-- Base64 of a byte sequence, as `Buffer.from(s).toString('base64')`. -/
def base64EncodeBytes : List UInt8 → List Char
  | a :: b :: c :: rest =>
      let n := a.toNat * 65536 + b.toNat * 256 + c.toNat
      b64Char (n / 262144) :: b64Char (n / 4096 % 64) :: b64Char (n / 64 % 64) ::
        b64Char (n % 64) :: base64EncodeBytes rest
  | [a, b] =>
      let n := a.toNat * 65536 + b.toNat * 256
      [b64Char (n / 262144), b64Char (n / 4096 % 64), b64Char (n / 64 % 64), '=']
  | [a] =>
      let n := a.toNat * 65536
      [b64Char (n / 262144), b64Char (n / 4096 % 64), '=', '=']
  | [] => []

def base64Encode (s : String) : String :=
  String.mk (base64EncodeBytes s.toUTF8.toList)

/-- Process-wide configuration read once at startup (lines 16-20 of the
source).  `environment` is `process.env.ENVIRONMENT`: `none` when the
variable is unset, `some s` when it is set to `s`. -/
structure Config where
  environment : Option String
  client_id : String
  client_secret : String
deriving Repr, DecidableEq

/-- `process.env.ENVIRONMENT || 'sandbox'`: JavaScript `||` falls through
to the default on `undefined` and on the empty string (both falsy). -/
def environmentVar (env : Option String) : String :=
  match env with
  | none => "sandbox"
  | some s => if s = "" then "sandbox" else s

def sandboxUrl : String := "https://api-m.sandbox.paypal.com"
def liveUrl : String := "https://api-m.paypal.com"

/-- `environment === 'sandbox' ? sandboxUrl : liveUrl` (line 20). -/
def endpoint_url (env : Option String) : String :=
  if environmentVar env = "sandbox" then sandboxUrl else liveUrl

/-- An outbound `fetch` request: URL, method, headers, optional body
(`none` models `body: null` / no body). -/
structure HttpRequest where
  url : String
  method : String
  headers : List (String × String)
  body : Option String
deriving Repr, DecidableEq

/-- An upstream response: HTTP status and the value `response.json()`
parses to. -/
structure HttpResponse where
  status : Nat
  json : Json
deriving Repr

/-- `response.ok`: status in the 2xx range. -/
def respOk (r : HttpResponse) : Bool :=
  200 ≤ r.status && r.status ≤ 299

/-- First `Authorization` header of a request. -/
def authHeader (r : HttpRequest) : Option String :=
  (r.headers.find? (fun p => p.1 = "Authorization")).map (fun p => p.2)

/-- A thrown JavaScript error, carrying its `.message`. -/
inductive JsError where
  | error : String → JsError
deriving Repr, DecidableEq

def JsError.message : JsError → String
  | .error m => m

/-- Body of a response sent to the client, separating Express's send
shapes: `res.json(obj)` / `res.send(object)` give JSON, `res.send(string)`
gives plain text, `res.send(err)` sends the raw error value, and
`res.send(undefined)`/`res.send(null)` ends the response with no payload. -/
inductive Body where
  | jsonBody : Json → Body
  | textBody : String → Body
  | errBody : JsError → Body
  | emptyBody : Body
deriving Repr

/-- `res.send(v)` on a JavaScript value. -/
def resSend : Json → Body
  | .str s => .textBody s
  | .undefined => .emptyBody
  | .null => .emptyBody
  | j => .jsonBody j

/-- Response sent back to the HTTP client. -/
structure ClientResponse where
  status : Nat
  body : Body
deriving Repr

/-- Result of one handler invocation: the client response, the ordered
trace of outbound upstream requests, and the arguments of every
`send_email_receipt` call. -/
structure HandlerOutcome where
  response : ClientResponse
  requests : List HttpRequest
  emails : List Json
deriving Repr

/-- The outbound OAuth2 token request built by `get_access_token`
(lines 188-200): POST to `/v1/oauth2/token` with HTTP Basic auth over
`client_id:client_secret` and body `grant_type=client_credentials`. -/
def tokenRequest (cfg : Config) : HttpRequest :=
  { url := endpoint_url cfg.environment ++ "/v1/oauth2/token"
  , method := "POST"
  , headers :=
      [("Content-Type", "application/x-www-form-urlencoded"),
       ("Authorization", "Basic " ++ base64Encode (cfg.client_id ++ ":" ++ cfg.client_secret))]
  , body := some "grant_type=client_credentials" }

/-- `get_access_token` (lines 188-211): one call to the token endpoint; on
2xx returns `json.access_token` (whatever JSON value that field holds), on
non-2xx throws.  The inner `catch (error) { throw error }` re-throws
unchanged, so the error propagates to the caller; the request trace is
returned alongside to record that the endpoint is hit exactly once. -/
def get_access_token (cfg : Config) (fetch : HttpRequest → HttpResponse) :
    Except JsError Json × List HttpRequest :=
  let resp := fetch (tokenRequest cfg)
  if respOk resp then
    (Except.ok (resp.json.getField "access_token"), [tokenRequest cfg])
  else
    (Except.error (JsError.error
        ("Failed to retrieve access token. Status: " ++ toString resp.status)),
      [tokenRequest cfg])

/-- The `order_data_json` literal of `/initiate-payment` (lines 45-54):
capture intent, one purchase unit with the caller's currency and amount. -/
def order_data_json (currency amount : Json) : Json :=
  .obj [("intent", .str "CAPTURE"),
        ("purchase_units",
          .arr [.obj [("amount", .obj [("currency_code", currency), ("value", amount)])]])]

/-- The outbound order-creation request of `/initiate-payment`
(lines 58-65). -/
def orderCreateRequest (cfg : Config) (access_token currency amount : Json) : HttpRequest :=
  { url := endpoint_url cfg.environment ++ "/v2/checkout/orders"
  , method := "POST"
  , headers :=
      [("Content-Type", "application/json"),
       ("Authorization", "Bearer " ++ access_token.toJsString)]
  , body := some (jsonStringify (order_data_json currency amount)) }

/-- The `/initiate-payment` handler (lines 37-77).  The card fields
destructured from the body (`cardNumber`, `cardHolder`, `expiry`, `cvv`)
are never used.  On upstream 2xx it `res.send`s the parsed JSON (default
status 200); otherwise it throws, and the catch logs and replies
`res.status(500).send(err)` — the raw error value. -/
def createOrder (cfg : Config) (fetch : HttpRequest → HttpResponse) (body : Json) :
    HandlerOutcome :=
  match get_access_token cfg fetch with
  | (Except.error err, trace) =>
      { response := { status := 500, body := .errBody err }
      , requests := trace, emails := [] }
  | (Except.ok access_token, trace) =>
      let req := orderCreateRequest cfg access_token (body.getField "currency") (body.getField "amount")
      let resp := fetch req
      if respOk resp then
        { response := { status := 200, body := resSend resp.json }
        , requests := trace ++ [req], emails := [] }
      else
        { response :=
            { status := 500
            , body := .errBody (JsError.error
                ("Failed to create payment order. Status: " ++ toString resp.status)) }
        , requests := trace ++ [req], emails := [] }

/-- The outbound order-action request of `/complete_order` (lines 97-103):
POST to `/v2/checkout/orders/{order_id}/{intent}` with no body. -/
def orderActionRequest (cfg : Config) (access_token order_id intent : Json) : HttpRequest :=
  { url := endpoint_url cfg.environment ++ "/v2/checkout/orders/" ++ order_id.toJsString
        ++ "/" ++ intent.toJsString
  , method := "POST"
  , headers :=
      [("Content-Type", "application/json"),
       ("Authorization", "Bearer " ++ access_token.toJsString)]
  , body := none }

/-- The `/complete_order` handler (lines 94-123).  On upstream 2xx the
success path first executes `loggert.info(json)`; no `loggert` is defined
anywhere in the module (the logger is named `logger`), so this line throws
`ReferenceError: loggert is not defined`.  The `if (json.id)`
`send_email_receipt` call and the `res.status(200).json(json)` reply are
therefore unreachable (`send_email_receipt` is itself also undefined in
the module).  The catch replies `res.status(500).json({ error: err.message })`. -/
def completeOrder (cfg : Config) (fetch : HttpRequest → HttpResponse) (body : Json) :
    HandlerOutcome :=
  match get_access_token cfg fetch with
  | (Except.error err, trace) =>
      { response :=
          { status := 500
          , body := .jsonBody (.obj [("error", .str err.message)]) }
      , requests := trace, emails := [] }
  | (Except.ok access_token, trace) =>
      let req := orderActionRequest cfg access_token (body.getField "order_id") (body.getField "intent")
      let resp := fetch req
      if respOk resp then
        let err := JsError.error "loggert is not defined"
        { response :=
            { status := 500
            , body := .jsonBody (.obj [("error", .str err.message)]) }
        , requests := trace ++ [req], emails := [] }
      else
        let err := JsError.error ("Failed to complete order. Status: " ++ toString resp.status)
        { response :=
            { status := 500
            , body := .jsonBody (.obj [("error", .str err.message)]) }
        , requests := trace ++ [req], emails := [] }

/-- The ternary of `/get_client_token` (lines 143-145): a JSON body
`{customer_id: ...}` when `req.body.customer_id` is truthy, `null`
(no body) otherwise — in particular `null` for an empty-string id. -/
def clientTokenPayload (customer_id : Json) : Option String :=
  if customer_id.truthy then
    some (jsonStringify (.obj [("customer_id", customer_id)]))
  else none

/-- The outbound identity token request of `/get_client_token`
(lines 147-154). -/
def clientTokenRequest (cfg : Config) (access_token : Json) (payload : Option String) :
    HttpRequest :=
  { url := endpoint_url cfg.environment ++ "/v1/identity/generate-token"
  , method := "post"
  , headers :=
      [("Authorization", "Bearer " ++ access_token.toJsString),
       ("Content-Type", "application/json")]
  , body := payload }

/-- The `/get_client_token` handler (lines 139-166).  On upstream 2xx it
`res.send`s `data.client_token` (plain text when that field is a string);
any throw is caught and answered with a fixed plain-text 500 message. -/
def getClientToken (cfg : Config) (fetch : HttpRequest → HttpResponse) (body : Json) :
    HandlerOutcome :=
  match get_access_token cfg fetch with
  | (Except.error _, trace) =>
      { response :=
          { status := 500
          , body := .textBody "An error occurred while processing the request." }
      , requests := trace, emails := [] }
  | (Except.ok access_token, trace) =>
      let req := clientTokenRequest cfg access_token
        (clientTokenPayload (body.getField "customer_id"))
      let resp := fetch req
      if respOk resp then
        { response := { status := 200, body := resSend (resp.json.getField "client_token") }
        , requests := trace ++ [req], emails := [] }
      else
        { response :=
            { status := 500
            , body := .textBody "An error occurred while processing the request." }
        , requests := trace ++ [req], emails := [] }

/-- `Bearer ${access_token}` header value produced from this invocation's
own token exchange. -/
def bearerOf (cfg : Config) (fetch : HttpRequest → HttpResponse) : String :=
  "Bearer " ++ ((fetch (tokenRequest cfg)).json.getField "access_token").toJsString

/-- Concrete configuration used to instantiate the theorems below. -/
def cfgW : Config :=
  { environment := none, client_id := "CID", client_secret := "CSEC" }

/-- A processor JSON reply carrying every field the handlers read. -/
def okJson : Json :=
  .obj [("id", .str "ORD1"), ("status", .str "COMPLETED"),
        ("access_token", .str "TOK"), ("client_token", .str "CT1")]

/-- An upstream oracle that answers every request with 200 / `okJson`. -/
def okFetchW : HttpRequest → HttpResponse :=
  fun _ => { status := 200, json := okJson }

/-- An upstream oracle that answers every request with 503. -/
def failFetchW : HttpRequest → HttpResponse :=
  fun _ => { status := 503, json := .null }

/-- An upstream oracle where the token exchange succeeds but every
subsequent call fails with 404. -/
def mixedFetchW : HttpRequest → HttpResponse :=
  fun r =>
    if r.url = sandboxUrl ++ "/v1/oauth2/token" then { status := 200, json := okJson }
    else { status := 404, json := .null }

/-- Two `/initiate-payment` bodies differing only in the card fields. -/
def cardBody1 : Json :=
  .obj [("cardNumber", .str "4111111111111111"), ("cardHolder", .str "Ann Test"),
        ("expiry", .str "11/26"), ("cvv", .str "123"),
        ("currency", .str "USD"), ("amount", .str "10.00")]

def cardBody2 : Json :=
  .obj [("cardNumber", .str "5500005555555559"), ("cardHolder", .str "Bob Test"),
        ("expiry", .str "01/30"), ("cvv", .str "999"),
        ("currency", .str "USD"), ("amount", .str "10.00")]

theorem get_access_token_of_ok (cfg : Config) (fetch : HttpRequest → HttpResponse)
    (h : respOk (fetch (tokenRequest cfg)) = true) :
    get_access_token cfg fetch =
      (Except.ok ((fetch (tokenRequest cfg)).json.getField "access_token"),
        [tokenRequest cfg]) := by
  simp [get_access_token, h]

theorem get_access_token_of_fail (cfg : Config) (fetch : HttpRequest → HttpResponse)
    (h : respOk (fetch (tokenRequest cfg)) = false) :
    get_access_token cfg fetch =
      (Except.error (JsError.error
          ("Failed to retrieve access token. Status: " ++ toString (fetch (tokenRequest cfg)).status)),
        [tokenRequest cfg]) := by
  simp [get_access_token, h]

theorem sandboxUrl_ne_liveUrl : sandboxUrl ≠ liveUrl := by
  decide

/-- C2: for every POST `/initiate-payment` request with currency `c` and
amount `a` in the body, the payload sent to the processor's order-creation
endpoint is the stringified `order_data_json`, whose `intent` is
`"CAPTURE"` and whose `purchase_units[0].amount` carries `currency_code = c`
and `value = a`; on upstream success the processor's order object is
returned verbatim with HTTP 200. -/
theorem c2_initiate_payment_payload
    (cfg : Config) (fetch : HttpRequest → HttpResponse) (body : Json) (c a : String)
    (hc : body.getField "currency" = Json.str c)
    (ha : body.getField "amount" = Json.str a)
    (htok : respOk (fetch (tokenRequest cfg)) = true) :
    ∃ req : HttpRequest,
      (createOrder cfg fetch body).requests = [tokenRequest cfg, req] ∧
      req.url = endpoint_url cfg.environment ++ "/v2/checkout/orders" ∧
      req.method = "POST" ∧
      req.body = some (jsonStringify (order_data_json (Json.str c) (Json.str a))) ∧
      (order_data_json (Json.str c) (Json.str a)).getField "intent" = Json.str "CAPTURE" ∧
      ((((order_data_json (Json.str c) (Json.str a)).getField "purchase_units").index 0).getField
          "amount").getField "currency_code" = Json.str c ∧
      ((((order_data_json (Json.str c) (Json.str a)).getField "purchase_units").index 0).getField
          "amount").getField "value" = Json.str a ∧
      (∀ fields : List (String × Json), respOk (fetch req) = true →
        (fetch req).json = Json.obj fields →
        (createOrder cfg fetch body).response =
          { status := 200, body := Body.jsonBody (Json.obj fields) }) := by
  refine ⟨orderCreateRequest cfg ((fetch (tokenRequest cfg)).json.getField "access_token")
      (Json.str c) (Json.str a), ?_, rfl, rfl, rfl, rfl, rfl, rfl, ?_⟩
  · simp only [createOrder, get_access_token_of_ok cfg fetch htok, hc, ha]
    split <;> rfl
  · intro fields hok hjson
    simp [createOrder, get_access_token_of_ok cfg fetch htok, hc, ha, hok, hjson, resSend]

/-- C2 witness: a concrete request with currency USD and amount 10.00
against an always-succeeding upstream. -/
theorem c2_initiate_payment_payload_witness :
    ∃ req : HttpRequest,
      (createOrder cfgW okFetchW cardBody1).requests = [tokenRequest cfgW, req] ∧
      req.url = endpoint_url cfgW.environment ++ "/v2/checkout/orders" ∧
      req.method = "POST" ∧
      req.body = some (jsonStringify (order_data_json (Json.str "USD") (Json.str "10.00"))) ∧
      (order_data_json (Json.str "USD") (Json.str "10.00")).getField "intent" =
        Json.str "CAPTURE" ∧
      ((((order_data_json (Json.str "USD") (Json.str "10.00")).getField
          "purchase_units").index 0).getField "amount").getField "currency_code" =
        Json.str "USD" ∧
      ((((order_data_json (Json.str "USD") (Json.str "10.00")).getField
          "purchase_units").index 0).getField "amount").getField "value" =
        Json.str "10.00" ∧
      (∀ fields : List (String × Json), respOk (okFetchW req) = true →
        (okFetchW req).json = Json.obj fields →
        (createOrder cfgW okFetchW cardBody1).response =
          { status := 200, body := Body.jsonBody (Json.obj fields) }) :=
  c2_initiate_payment_payload cfgW okFetchW cardBody1 "USD" "10.00" rfl rfl rfl

/-- C9: the card fields of `/initiate-payment` are destructured but never
used — two requests agreeing on `currency` and `amount` produce identical
handler outcomes (same upstream payload, same trace, same response),
whatever their `cardNumber`, `cardHolder`, `expiry`, `cvv`. -/
theorem c9_card_fields_noninterference
    (cfg : Config) (fetch : HttpRequest → HttpResponse) (b1 b2 : Json)
    (hcur : b1.getField "currency" = b2.getField "currency")
    (hamt : b1.getField "amount" = b2.getField "amount") :
    createOrder cfg fetch b1 = createOrder cfg fetch b2 := by
  unfold createOrder
  rw [hcur, hamt]

/-- C9 witness: two concrete bodies with different card numbers, holders,
expiries and CVVs but the same currency and amount. -/
theorem c9_card_fields_noninterference_witness :
    createOrder cfgW okFetchW cardBody1 = createOrder cfgW okFetchW cardBody2 :=
  c9_card_fields_noninterference cfgW okFetchW cardBody1 cardBody2 rfl rfl

/-- C4: a non-2xx upstream response — on the token fetch or on the
subsequent call — makes each of the three endpoints answer HTTP 500, and
the request trace shows each upstream endpoint hit exactly once, with no
retry: on token failure the trace is just the token request, on
second-call failure it is the token request followed by one call to the
failing endpoint. -/
theorem c4_upstream_failure_gives_500
    (cfg : Config) (fetch : HttpRequest → HttpResponse) (body : Json) :
    (respOk (fetch (tokenRequest cfg)) = false →
      ((createOrder cfg fetch body).response.status = 500 ∧
        (createOrder cfg fetch body).requests = [tokenRequest cfg]) ∧
      ((completeOrder cfg fetch body).response.status = 500 ∧
        (completeOrder cfg fetch body).requests = [tokenRequest cfg]) ∧
      ((getClientToken cfg fetch body).response.status = 500 ∧
        (getClientToken cfg fetch body).requests = [tokenRequest cfg])) ∧
    (respOk (fetch (tokenRequest cfg)) = true →
      (respOk (fetch (orderCreateRequest cfg
            ((fetch (tokenRequest cfg)).json.getField "access_token")
            (body.getField "currency") (body.getField "amount"))) = false →
        (createOrder cfg fetch body).response.status = 500 ∧
        (createOrder cfg fetch body).requests =
          [tokenRequest cfg,
            orderCreateRequest cfg ((fetch (tokenRequest cfg)).json.getField "access_token")
              (body.getField "currency") (body.getField "amount")]) ∧
      (respOk (fetch (orderActionRequest cfg
            ((fetch (tokenRequest cfg)).json.getField "access_token")
            (body.getField "order_id") (body.getField "intent"))) = false →
        (completeOrder cfg fetch body).response.status = 500 ∧
        (completeOrder cfg fetch body).requests =
          [tokenRequest cfg,
            orderActionRequest cfg ((fetch (tokenRequest cfg)).json.getField "access_token")
              (body.getField "order_id") (body.getField "intent")]) ∧
      (respOk (fetch (clientTokenRequest cfg
            ((fetch (tokenRequest cfg)).json.getField "access_token")
            (clientTokenPayload (body.getField "customer_id")))) = false →
        (getClientToken cfg fetch body).response.status = 500 ∧
        (getClientToken cfg fetch body).requests =
          [tokenRequest cfg,
            clientTokenRequest cfg ((fetch (tokenRequest cfg)).json.getField "access_token")
              (clientTokenPayload (body.getField "customer_id"))])) := by
  constructor
  · intro hfail
    simp [createOrder, completeOrder, getClientToken, get_access_token_of_fail cfg fetch hfail]
  · intro htok
    refine ⟨fun h2 => ?_, fun h2 => ?_, fun h2 => ?_⟩
    · simp [createOrder, get_access_token_of_ok cfg fetch htok, h2]
    · simp [completeOrder, get_access_token_of_ok cfg fetch htok, h2]
    · simp [getClientToken, get_access_token_of_ok cfg fetch htok, h2]

/-- C4 witness: a fully failing upstream (503 everywhere) and an upstream
whose token exchange succeeds but whose identity-token call fails (404). -/
theorem c4_upstream_failure_gives_500_witness :
    ((createOrder cfgW failFetchW Json.null).response.status = 500 ∧
      (createOrder cfgW failFetchW Json.null).requests = [tokenRequest cfgW]) ∧
    ((getClientToken cfgW mixedFetchW Json.null).response.status = 500 ∧
      (getClientToken cfgW mixedFetchW Json.null).requests =
        [tokenRequest cfgW,
          clientTokenRequest cfgW ((mixedFetchW (tokenRequest cfgW)).json.getField "access_token")
            (clientTokenPayload (Json.null.getField "customer_id"))]) := by
  constructor
  · exact ((c4_upstream_failure_gives_500 cfgW failFetchW Json.null).1 rfl).1
  · exact ((c4_upstream_failure_gives_500 cfgW mixedFetchW Json.null).2 rfl).2.2 rfl

/-- C5: `get_access_token` issues exactly one POST to the token endpoint
with `Basic base64(client_id:client_secret)` authorization and body
`grant_type=client_credentials`; on a 2xx reply it returns the
`access_token` field (the bearer token string), on a non-2xx reply it
throws, the error reaching the caller after that single call. -/
theorem c5_get_access_token_contract
    (cfg : Config) (fetch : HttpRequest → HttpResponse) :
    (tokenRequest cfg).method = "POST" ∧
    (tokenRequest cfg).url = endpoint_url cfg.environment ++ "/v1/oauth2/token" ∧
    authHeader (tokenRequest cfg) =
      some ("Basic " ++ base64Encode (cfg.client_id ++ ":" ++ cfg.client_secret)) ∧
    (tokenRequest cfg).body = some "grant_type=client_credentials" ∧
    (∀ t : String, respOk (fetch (tokenRequest cfg)) = true →
      (fetch (tokenRequest cfg)).json.getField "access_token" = Json.str t →
      get_access_token cfg fetch = (Except.ok (Json.str t), [tokenRequest cfg])) ∧
    (respOk (fetch (tokenRequest cfg)) = false →
      get_access_token cfg fetch =
        (Except.error (JsError.error
            ("Failed to retrieve access token. Status: " ++
              toString (fetch (tokenRequest cfg)).status)),
          [tokenRequest cfg])) := by
  refine ⟨rfl, rfl, rfl, rfl, ?_, ?_⟩
  · intro t hok hfield
    rw [get_access_token_of_ok cfg fetch hok, hfield]
  · intro hfail
    exact get_access_token_of_fail cfg fetch hfail

/-- C5 witness: a successful exchange returning token `TOK` and a 503
exchange producing the thrown error, each after exactly one call. -/
theorem c5_get_access_token_contract_witness :
    get_access_token cfgW okFetchW = (Except.ok (Json.str "TOK"), [tokenRequest cfgW]) ∧
    get_access_token cfgW failFetchW =
      (Except.error (JsError.error "Failed to retrieve access token. Status: 503"),
        [tokenRequest cfgW]) := by
  constructor
  · exact (c5_get_access_token_contract cfgW okFetchW).2.2.2.2.1 "TOK" rfl rfl
  · exact (c5_get_access_token_contract cfgW failFetchW).2.2.2.2.2 rfl

/-- C7: each of the three handlers is a pure function of the configuration,
the upstream oracle and the request body (no token cache or cross-request
state exists in the module); its upstream trace always begins with this
invocation's own token request, and every later request in the trace
carries `Authorization: Bearer <token>` where the token is exactly the
`access_token` field of this invocation's token-exchange reply. -/
theorem c7_fresh_token_per_invocation
    (cfg : Config) (fetch : HttpRequest → HttpResponse) (body : Json) :
    ((createOrder cfg fetch body).requests.head? = some (tokenRequest cfg) ∧
      (createOrder cfg fetch body).requests.tail.all
        (fun r => authHeader r == some (bearerOf cfg fetch)) = true) ∧
    ((completeOrder cfg fetch body).requests.head? = some (tokenRequest cfg) ∧
      (completeOrder cfg fetch body).requests.tail.all
        (fun r => authHeader r == some (bearerOf cfg fetch)) = true) ∧
    ((getClientToken cfg fetch body).requests.head? = some (tokenRequest cfg) ∧
      (getClientToken cfg fetch body).requests.tail.all
        (fun r => authHeader r == some (bearerOf cfg fetch)) = true) := by
  cases htok : respOk (fetch (tokenRequest cfg)) with
  | false =>
      simp [createOrder, completeOrder, getClientToken,
        get_access_token_of_fail cfg fetch htok]
  | true =>
      refine ⟨⟨?_, ?_⟩, ⟨?_, ?_⟩, ⟨?_, ?_⟩⟩ <;>
        simp only [createOrder, completeOrder, getClientToken,
          get_access_token_of_ok cfg fetch htok] <;>
        split <;>
        simp [authHeader, orderCreateRequest, orderActionRequest, clientTokenRequest,
          bearerOf]

/-- C8: whenever an endpoint answers 500, the body has that endpoint's own
envelope — `/initiate-payment` sends the raw error value, `/complete_order`
sends the JSON object `{error: <message>}`, `/get_client_token` sends a
fixed plain-text sentence — and the three envelopes are pairwise distinct
shapes. -/
theorem c8_distinct_error_envelopes
    (cfg : Config) (fetch : HttpRequest → HttpResponse) (body : Json) :
    ((createOrder cfg fetch body).response.status = 500 →
      ∃ e : JsError, (createOrder cfg fetch body).response.body = Body.errBody e) ∧
    ((completeOrder cfg fetch body).response.status = 500 →
      ∃ m : String, (completeOrder cfg fetch body).response.body =
        Body.jsonBody (Json.obj [("error", Json.str m)])) ∧
    ((getClientToken cfg fetch body).response.status = 500 →
      (getClientToken cfg fetch body).response.body =
        Body.textBody "An error occurred while processing the request.") ∧
    (∀ (e : JsError) (m s : String),
      Body.errBody e ≠ Body.jsonBody (Json.obj [("error", Json.str m)]) ∧
      Body.errBody e ≠ Body.textBody s ∧
      Body.jsonBody (Json.obj [("error", Json.str m)]) ≠ Body.textBody s) := by
  refine ⟨?_, ?_, ?_, ?_⟩
  · intro h500
    cases htok : respOk (fetch (tokenRequest cfg)) with
    | false =>
        simp [createOrder, get_access_token_of_fail cfg fetch htok]
    | true =>
        revert h500
        simp only [createOrder, get_access_token_of_ok cfg fetch htok]
        split
        · intro h500
          simp at h500
        · intro _
          exact ⟨_, rfl⟩
  · intro _
    cases htok : respOk (fetch (tokenRequest cfg)) with
    | false =>
        simp [completeOrder, get_access_token_of_fail cfg fetch htok, JsError.message]
    | true =>
        simp only [completeOrder, get_access_token_of_ok cfg fetch htok]
        split
        · exact ⟨_, rfl⟩
        · exact ⟨_, rfl⟩
  · intro h500
    cases htok : respOk (fetch (tokenRequest cfg)) with
    | false =>
        simp [getClientToken, get_access_token_of_fail cfg fetch htok]
    | true =>
        revert h500
        simp only [getClientToken, get_access_token_of_ok cfg fetch htok]
        split
        · intro h500
          simp at h500
        · intro _
          rfl
  · intro e m s
    refine ⟨fun h => ?_, fun h => ?_, fun h => ?_⟩ <;> cases h

/-- C8 witness: with an all-503 upstream all three endpoints answer 500,
each with its own envelope. -/
theorem c8_distinct_error_envelopes_witness :
    (∃ e : JsError, (createOrder cfgW failFetchW Json.null).response.body = Body.errBody e) ∧
    (∃ m : String, (completeOrder cfgW failFetchW Json.null).response.body =
      Body.jsonBody (Json.obj [("error", Json.str m)])) ∧
    (getClientToken cfgW failFetchW Json.null).response.body =
      Body.textBody "An error occurred while processing the request." := by
  obtain ⟨h1, h2, h3, _⟩ := c8_distinct_error_envelopes cfgW failFetchW Json.null
  exact ⟨h1 rfl, h2 rfl, h3 rfl⟩

/-- C6 counterexample: a request body in which `customer_id` is present
but is the empty string.  The ternary `req.body.customer_id ? ... : null`
tests JavaScript truthiness, so the upstream identity request is sent with
no body (`null`) instead of the claimed `{"customer_id":""}`. -/
theorem c6_empty_customer_id_counterexample :
    ¬(((getClientToken cfgW okFetchW (Json.obj [("customer_id", Json.str "")])).requests.getD 1
          (tokenRequest cfgW)).body =
        some (jsonStringify (Json.obj [("customer_id", Json.str "")]))) := by
  decide

/-- C6 amended: for every POST `/get_client_token` request whose token
exchange succeeds, exactly one identity/generate-token request follows;
its body is `{customer_id: <id>}` when the body's `customer_id` is
JavaScript-truthy (in particular any non-empty string), and empty (`null`)
when the field is absent, empty, or otherwise falsy; on upstream 2xx the
handler replies 200 with the upstream `client_token` field as plain text. -/
theorem c6_client_token_contract
    (cfg : Config) (fetch : HttpRequest → HttpResponse) (body : Json)
    (htok : respOk (fetch (tokenRequest cfg)) = true) :
    ∃ req : HttpRequest,
      (getClientToken cfg fetch body).requests = [tokenRequest cfg, req] ∧
      req.url = endpoint_url cfg.environment ++ "/v1/identity/generate-token" ∧
      req.body = clientTokenPayload (body.getField "customer_id") ∧
      ((body.getField "customer_id").truthy = true →
        req.body =
          some (jsonStringify (Json.obj [("customer_id", body.getField "customer_id")]))) ∧
      ((body.getField "customer_id").truthy = false → req.body = none) ∧
      (∀ t : String, respOk (fetch req) = true →
        (fetch req).json.getField "client_token" = Json.str t →
        (getClientToken cfg fetch body).response =
          { status := 200, body := Body.textBody t }) := by
  refine ⟨clientTokenRequest cfg ((fetch (tokenRequest cfg)).json.getField "access_token")
      (clientTokenPayload (body.getField "customer_id")), ?_, rfl, rfl, ?_, ?_, ?_⟩
  · simp only [getClientToken, get_access_token_of_ok cfg fetch htok]
    split <;> rfl
  · intro htruthy
    simp [clientTokenRequest, clientTokenPayload, htruthy]
  · intro hfalsy
    simp [clientTokenRequest, clientTokenPayload, hfalsy]
  · intro t hok hfield
    simp [getClientToken, get_access_token_of_ok cfg fetch htok, hok, hfield, resSend]

/-- C6 witness: a non-empty customer id `CUST9` scopes the upstream body
and the plain-text token `CT1` comes back with status 200. -/
theorem c6_client_token_contract_witness :
    (getClientToken cfgW okFetchW (Json.obj [("customer_id", Json.str "CUST9")])).response =
      { status := 200, body := Body.textBody "CT1" } := by
  obtain ⟨req, _, _, _, _, _, hresp⟩ :=
    c6_client_token_contract cfgW okFetchW (Json.obj [("customer_id", Json.str "CUST9")]) rfl
  exact hresp "CT1" rfl rfl

/-- C10 counterexample: `ENVIRONMENT` set to the empty string.  The code
computes `process.env.ENVIRONMENT || 'sandbox'`, and the empty string is
falsy, so the sandbox base URL is selected although the variable is set
and differs from the exact string `sandbox` — the claimed `iff` fails. -/
theorem c10_empty_environment_counterexample :
    ¬(endpoint_url (some "") = sandboxUrl ↔
        ((some "" : Option String) = none ∨ (some "" : Option String) = some "sandbox")) := by
  decide

/-- C10 amended: the sandbox base URL is used iff `ENVIRONMENT` is unset,
set to the empty string, or set to the exact string `sandbox`; every
other value selects the live base URL. -/
theorem c10_environment_selection (env : Option String) :
    endpoint_url env = sandboxUrl ↔
      (env = none ∨ env = some "" ∨ env = some "sandbox") := by
  cases env with
  | none => simp [endpoint_url, environmentVar]
  | some s =>
      by_cases hs : s = ""
      · subst hs
        simp [endpoint_url, environmentVar]
      · by_cases hsb : s = "sandbox"
        · subst hsb
          simp [endpoint_url, environmentVar]
        · have hlive : endpoint_url (some s) = liveUrl := by
            simp [endpoint_url, environmentVar, hs, hsb]
          simp [hlive, hs, hsb, (Ne.symm sandboxUrl_ne_liveUrl)]

/-- C1: on a successful (2xx) upstream order-action call, `/complete_order`
does not log the response and does not answer 200 — the success path's
first statement `loggert.info(json)` references the undefined identifier
`loggert` (the module's logger is `logger`), throws, and the catch answers
500 with `{error: "loggert is not defined"}`.  The second conjunct records
that the upstream call did succeed, so the 500 comes from the handler's
own crash. -/
theorem c1_complete_order_crashes_on_success :
    (completeOrder cfgW okFetchW
        (Json.obj [("order_id", Json.str "ORD1"), ("intent", Json.str "capture"),
          ("email", Json.str "buyer@example.com")])).response =
      { status := 500
      , body := Body.jsonBody (Json.obj [("error", Json.str "loggert is not defined")]) } ∧
    respOk (okFetchW (orderActionRequest cfgW (Json.str "TOK") (Json.str "ORD1")
        (Json.str "capture"))) = true :=
  ⟨rfl, rfl⟩

/-- C3: even with an email supplied and an upstream 2xx reply whose JSON
contains `id`, no receipt is ever dispatched: the crash at
`loggert.info(json)` happens before the `if (json.id)` guard, so
`send_email_receipt` (itself also undefined in the module) is invoked
zero times. -/
theorem c3_receipt_never_dispatched :
    (completeOrder cfgW okFetchW
        (Json.obj [("order_id", Json.str "ORD1"), ("intent", Json.str "capture"),
          ("email", Json.str "buyer@example.com")])).emails = [] ∧
    (okFetchW (orderActionRequest cfgW (Json.str "TOK") (Json.str "ORD1")
        (Json.str "capture"))).json.getField "id" = Json.str "ORD1" ∧
    (Json.obj [("order_id", Json.str "ORD1"), ("intent", Json.str "capture"),
        ("email", Json.str "buyer@example.com")]).getField "email" =
      Json.str "buyer@example.com" :=
  ⟨rfl, rfl, rfl⟩
